import Mathlib

/-!
A verification development for the homotopy combinator library.

The library is an algebra of homotopies: values packaging two endpoint
functions `f`, `g` and an interpolation map `h` with the boundary contract
`h x 0 = f x`, `h x 1 = g x`.  The Rust trait `Homotopy<X, Scalar>` with
associated output `Y` is embedded as a structure of three functions.

Scalar model: the library's `f64` arithmetic is embedded as exact rational
arithmetic (`ℚ`) for all generic numeric primitives, and as real arithmetic
(`ℝ`) for the circle primitive, whose fallback branch evaluates genuine
trigonometric functions.  The two step primitives, whose behaviour hinges on
the IEEE comparison `s == 0.0`, additionally get a model `F64` of the scalar
as that comparison observes it (finite values, the negative zero, NaN).

The repository's `sides` and `compose` modules are declared in `lib.rs` but
their files are not part of the sources here; the definitions taken from
them are modelled from the specification and marked as such.
-/

namespace HomotopyLib

/-- A homotopy value: endpoint functions `f` and `g` over input `X`, and a
map `h` taking an extra parameter of shape `S`.  Mirrors the Rust trait
`Homotopy<X, Scalar>` with associated output type `Y`. -/
structure Homotopy (X S Y : Type) where
  f : X → Y
  g : X → Y
  h : X → S → Y


/-- `hu`: evaluate `h` at the default input value (Rust `Default::default()`),
used when the input type is a unit-like placeholder. -/
def Homotopy.hu {X S Y : Type} [Inhabited X] (t : Homotopy X S Y) (s : S) : Y :=
  t.h default s

/-- The boundary contract at designated start and end parameters:
`h x s0 = f x` and `h x s1 = g x` for every input `x`. -/
def BoundaryAt {X S Y : Type} (s0 s1 : S) (t : Homotopy X S Y) : Prop :=
  ∀ x, t.h x s0 = t.f x ∧ t.h x s1 = t.g x

/-- The identity homotopy (`Id` in the source): `f`, `g` and `h` all return
the input, for any parameter shape. -/
def IdH (X S : Type) : Homotopy X S X where
  f := fun x => x
  g := fun x => x
  h := fun x _ => x

/-- The `Dirac` step homotopy over the exact scalar model:
`f = 1`, `g = 0`, and `h` is `1` exactly at `s = 0`, else `0`. -/
def Dirac : Homotopy Unit ℚ ℚ where
  f := fun _ => 1
  g := fun _ => 0
  h := fun _ s => if s = 0 then 1 else 0

/-- `DiracFrom(f, g)`: `h` is `f` at `0.0` and `g` elsewhere (exact scalar model). -/
def DiracFrom {X Y : Type} (fx gx : X → Y) : Homotopy X ℚ Y where
  f := fx
  g := gx
  h := fun x s => if s = 0 then fx x else gx x

/-- Model of the `f64` scalar as the step primitives observe it through the
IEEE comparison `==`: a finite value (rationals stand for finite doubles),
the negative zero, or a NaN. -/
inductive F64 : Type where
  | nan : F64
  | negZero : F64
  | fin : ℚ → F64

/-- The IEEE comparison `==` on modelled scalars: NaN equals nothing,
`-0.0` equals `0.0`, finite values compare by value. -/
def F64.eq : F64 → F64 → Bool
  | .nan, _ => false
  | _, .nan => false
  | .negZero, .negZero => true
  | .negZero, .fin q => q == 0
  | .fin q, .negZero => q == 0
  | .fin a, .fin b => a == b

/-- The `Dirac` step homotopy over the modelled `f64` scalar: the source's
`if s == 0.0 {1.0} else {0.0}`. -/
def DiracF : Homotopy Unit F64 ℚ where
  f := fun _ => 1
  g := fun _ => 0
  h := fun _ s => if F64.eq s (.fin 0) then 1 else 0

/-- `DiracFrom(f, g)` over the modelled `f64` scalar: the source's
`if s == 0.0 {f(x)} else {g(x)}`. -/
def DiracFromF {X Y : Type} (fx gx : X → Y) : Homotopy X F64 Y where
  f := fx
  g := gx
  h := fun x s => if F64.eq s (.fin 0) then fx x else gx x

/-- Linear interpolation `Lerp(a, b)`: `h s = a·(1−s) + b·s`.  The source is
generic over outputs with `Mul<f64> + Add`; embedded at the exact rational
instance of that capability. -/
def Lerp (a b : ℚ) : Homotopy Unit ℚ ℚ where
  f := fun _ => a
  g := fun _ => b
  h := fun _ s => a * (1 - s) + b * s

/-- Quadratic Bezier `(a, b, c)`: de Casteljau through two nested `Lerp`
evaluations, exactly as the source's `h`. -/
def QuadraticBezier (a b c : ℚ) : Homotopy Unit ℚ ℚ where
  f := fun _ => a
  g := fun _ => c
  h := fun _ s => (Lerp ((Lerp a b).h () s) ((Lerp b c).h () s)).h () s

/-- `QuadraticBezier::from_linear(a, b)`: middle control point `a·0.5 + b·0.5`. -/
def QuadraticBezier.from_linear (a b : ℚ) : Homotopy Unit ℚ ℚ :=
  QuadraticBezier a (a * (1/2) + b * (1/2)) b

/-- Cubic Bezier `(a, b, c, d)`: the source's reduced two-level form, lerping
`(a, b)` and `(c, d)` and then lerping the two results. -/
def CubicBezier (a b c d : ℚ) : Homotopy Unit ℚ ℚ where
  f := fun _ => a
  g := fun _ => d
  h := fun _ s => (Lerp ((Lerp a b).h () s) ((Lerp c d).h () s)).h () s

/-- `CubicBezier::from_quadratic(a, b, c)`: repeats the middle control point. -/
def CubicBezier.from_quadratic (a b c : ℚ) : Homotopy Unit ℚ ℚ :=
  CubicBezier a b b c

/-- `Translate(d)` on scalars: `f x = x`, `g x = x + d`, `h x s = x + s·d`. -/
def Translate (d : ℚ) : Homotopy ℚ ℚ ℚ where
  f := fun x => x
  g := fun x => x + d
  h := fun x s => x + s * d

/-- `Translate(d)` on pairs (the `[f64; 2]` instance), componentwise. -/
def Translate2 (d : ℚ × ℚ) : Homotopy (ℚ × ℚ) ℚ (ℚ × ℚ) where
  f := fun x => x
  g := fun x => (x.1 + d.1, x.2 + d.2)
  h := fun x s => (x.1 + s * d.1, x.2 + s * d.2)

/-- `Translate(d)` on triples (the `[f64; 3]` instance), componentwise. -/
def Translate3 (d : ℚ × ℚ × ℚ) : Homotopy (ℚ × ℚ × ℚ) ℚ (ℚ × ℚ × ℚ) where
  f := fun x => x
  g := fun x => (x.1 + d.1, x.2.1 + d.2.1, x.2.2 + d.2.2)
  h := fun x s => (x.1 + s * d.1, x.2.1 + s * d.2.1, x.2.2 + s * d.2.2)

/-- `Translate(d)` on quadruples (the `[f64; 4]` instance), componentwise. -/
def Translate4 (d : ℚ × ℚ × ℚ × ℚ) : Homotopy (ℚ × ℚ × ℚ × ℚ) ℚ (ℚ × ℚ × ℚ × ℚ) where
  f := fun x => x
  g := fun x => (x.1 + d.1, x.2.1 + d.2.1, x.2.2.1 + d.2.2.1, x.2.2.2 + d.2.2.2)
  h := fun x s =>
    (x.1 + s * d.1, x.2.1 + s * d.2.1, x.2.2.1 + s * d.2.2.1, x.2.2.2 + s * d.2.2.2)

/-- `Circle {center, radius}` over the reals: the source special-cases
`s = 1, 1/2, 1/4, 3/4` in that order to exact coordinates, and otherwise
evaluates `center + radius·(cos 2πs, sin 2πs)`.  `f` and `g` are both the
point at angle 0 (a closed curve). -/
noncomputable def Circle (center : ℝ × ℝ) (radius : ℝ) : Homotopy Unit ℝ (ℝ × ℝ) where
  f := fun _ => (center.1 + radius, center.2)
  g := fun _ => (center.1 + radius, center.2)
  h := fun _ s =>
    if s = 1 then (center.1 + radius, center.2)
    else if s = 1/2 then (center.1 - radius, center.2)
    else if s = 1/4 then (center.1, center.2 + radius)
    else if s = 3/4 then (center.1, center.2 - radius)
    else (center.1 + radius * Real.cos (s * Real.pi * 2),
          center.2 + radius * Real.sin (s * Real.pi * 2))

/-- `Square::new(h1, h2)`: the 2D product; axis `k` of the parameter drives
the `k`-th inner homotopy and the output is the pair of inner outputs. -/
def Square {X1 X2 Y1 Y2 : Type} (h1 : Homotopy X1 ℚ Y1) (h2 : Homotopy X2 ℚ Y2) :
    Homotopy (X1 × X2) (ℚ × ℚ) (Y1 × Y2) where
  f := fun x => (h1.f x.1, h2.f x.2)
  g := fun x => (h1.g x.1, h2.g x.2)
  h := fun x s => (h1.h x.1 s.1, h2.h x.2 s.2)

/-- `Cube::new(h1, h2, h3)`: the 3D product. -/
def Cube {X1 X2 X3 Y1 Y2 Y3 : Type} (h1 : Homotopy X1 ℚ Y1) (h2 : Homotopy X2 ℚ Y2)
    (h3 : Homotopy X3 ℚ Y3) : Homotopy (X1 × X2 × X3) (ℚ × ℚ × ℚ) (Y1 × Y2 × Y3) where
  f := fun x => (h1.f x.1, h2.f x.2.1, h3.f x.2.2)
  g := fun x => (h1.g x.1, h2.g x.2.1, h3.g x.2.2)
  h := fun x s => (h1.h x.1 s.1, h2.h x.2.1 s.2.1, h3.h x.2.2 s.2.2)

/-- `Cube4::new(h1, h2, h3, h4)`: the 4D product. -/
def Cube4 {X1 X2 X3 X4 Y1 Y2 Y3 Y4 : Type} (h1 : Homotopy X1 ℚ Y1)
    (h2 : Homotopy X2 ℚ Y2) (h3 : Homotopy X3 ℚ Y3) (h4 : Homotopy X4 ℚ Y4) :
    Homotopy (X1 × X2 × X3 × X4) (ℚ × ℚ × ℚ × ℚ) (Y1 × Y2 × Y3 × Y4) where
  f := fun x => (h1.f x.1, h2.f x.2.1, h3.f x.2.2.1, h4.f x.2.2.2)
  g := fun x => (h1.g x.1, h2.g x.2.1, h3.g x.2.2.1, h4.g x.2.2.2)
  h := fun x s => (h1.h x.1 s.1, h2.h x.2.1 s.2.1, h3.h x.2.2.1 s.2.2.1, h4.h x.2.2.2 s.2.2.2)

/-- `Inverse(t)`: swaps `f` and `g` and reverses the scalar, `h x s = t.h x (1−s)`. -/
def Inverse {X Y : Type} (t : Homotopy X ℚ Y) : Homotopy X ℚ Y where
  f := t.g
  g := t.f
  h := fun x s => t.h x (1 - s)

/-- `Map`: post-composes every output with a pure function, for any parameter
shape, adding or removing no axes. -/
def Map {X S Y1 Y2 : Type} (t : Homotopy X S Y1) (fn : Y1 → Y2) : Homotopy X S Y2 where
  f := fun x => fn (t.f x)
  g := fun x => fn (t.g x)
  h := fun x s => fn (t.h x s)

/-- `SMap` over a 1-axis inner homotopy (the `[f64; 2]` instance): the first
axis drives the inner homotopy, the last is consumed by `fn`. -/
def SMap2 {X Y1 Y2 : Type} (t : Homotopy X ℚ Y1) (fn : Y1 → ℚ → Y2) :
    Homotopy X (ℚ × ℚ) Y2 where
  f := fun x => fn (t.f x) 0
  g := fun x => fn (t.g x) 1
  h := fun x s => fn (t.h x s.1) s.2

/-- `SMap` over a 2-axis inner homotopy (the `[f64; 3]` instance). -/
def SMap3 {X Y1 Y2 : Type} (t : Homotopy X (ℚ × ℚ) Y1) (fn : Y1 → ℚ → Y2) :
    Homotopy X (ℚ × ℚ × ℚ) Y2 where
  f := fun x => fn (t.f x) 0
  g := fun x => fn (t.g x) 1
  h := fun x s => fn (t.h x (s.1, s.2.1)) s.2.2

/-- `SMap` over a 3-axis inner homotopy (the `[f64; 4]` instance). -/
def SMap4 {X Y1 Y2 : Type} (t : Homotopy X (ℚ × ℚ × ℚ) Y1) (fn : Y1 → ℚ → Y2) :
    Homotopy X (ℚ × ℚ × ℚ × ℚ) Y2 where
  f := fun x => fn (t.f x) 0
  g := fun x => fn (t.g x) 1
  h := fun x s => fn (t.h x (s.1, s.2.1, s.2.2.1)) s.2.2.2

/-- `AsVec` at arity 2: reinterprets a pair-valued homotopy as vector-valued
(`[Y; 2]` modelled as `Fin 2 → Y`), changing no evaluated value. -/
def AsVec2 {X S Y : Type} (t : Homotopy (X × X) S (Y × Y)) :
    Homotopy (Fin 2 → X) S (Fin 2 → Y) where
  f := fun x => ![(t.f (x 0, x 1)).1, (t.f (x 0, x 1)).2]
  g := fun x => ![(t.g (x 0, x 1)).1, (t.g (x 0, x 1)).2]
  h := fun x s => ![(t.h (x 0, x 1) s).1, (t.h (x 0, x 1) s).2]

/-- Modelled from the spec: the `sides` module's `Diagonal` (its file is not
among the repository's sources).  Every axis of a 2D homotopy is set to the
same shared scalar; `f` and `g` are the inner `f` and `g` unchanged. -/
def Diagonal2 {X Y : Type} (t : Homotopy X (ℚ × ℚ) Y) : Homotopy X ℚ Y where
  f := t.f
  g := t.g
  h := fun x s => t.h x (s, s)

/-- Modelled from the spec: the `sides` module's `Diagonal` on a 3D homotopy:
every axis set to the same shared scalar. -/
def Diagonal3 {X Y : Type} (t : Homotopy X (ℚ × ℚ × ℚ) Y) : Homotopy X ℚ Y where
  f := t.f
  g := t.g
  h := fun x s => t.h x (s, s, s)

/-- Modelled from the spec: the `sides` module's `Diagonal` on a 4D homotopy:
every axis set to the same shared scalar. -/
def Diagonal4 {X Y : Type} (t : Homotopy X (ℚ × ℚ × ℚ × ℚ) Y) : Homotopy X ℚ Y where
  f := t.f
  g := t.g
  h := fun x s => t.h x (s, s, s, s)

/-- Modelled from the spec: `Left` on a 2D homotopy (the `sides` module's file
is missing) pins axis 0 (left/right) to its boundary value 0; the face's `f`
and `g` put the remaining axes at all-zero and all-one. -/
def Left2 {X Y : Type} (t : Homotopy X (ℚ × ℚ) Y) : Homotopy X ℚ Y where
  f := fun x => t.h x (0, 0)
  g := fun x => t.h x (0, 1)
  h := fun x s => t.h x (0, s)

/-- Modelled from the spec: `Right` on a 2D homotopy pins axis 0 to 1. -/
def Right2 {X Y : Type} (t : Homotopy X (ℚ × ℚ) Y) : Homotopy X ℚ Y where
  f := fun x => t.h x (1, 0)
  g := fun x => t.h x (1, 1)
  h := fun x s => t.h x (1, s)

/-- Modelled from the spec: `Top` on a 2D homotopy pins axis 1 (top/bottom) to 0. -/
def Top2 {X Y : Type} (t : Homotopy X (ℚ × ℚ) Y) : Homotopy X ℚ Y where
  f := fun x => t.h x (0, 0)
  g := fun x => t.h x (1, 0)
  h := fun x s => t.h x (s, 0)

/-- Modelled from the spec: `Bottom` on a 2D homotopy pins axis 1 to 1. -/
def Bottom2 {X Y : Type} (t : Homotopy X (ℚ × ℚ) Y) : Homotopy X ℚ Y where
  f := fun x => t.h x (0, 1)
  g := fun x => t.h x (1, 1)
  h := fun x s => t.h x (s, 1)

/-- Modelled from the spec: `Left` on a 3D homotopy pins axis 0 to 0. -/
def Left3 {X Y : Type} (t : Homotopy X (ℚ × ℚ × ℚ) Y) : Homotopy X (ℚ × ℚ) Y where
  f := fun x => t.h x (0, 0, 0)
  g := fun x => t.h x (0, 1, 1)
  h := fun x s => t.h x (0, s.1, s.2)

/-- Modelled from the spec: `Right` on a 3D homotopy pins axis 0 to 1. -/
def Right3 {X Y : Type} (t : Homotopy X (ℚ × ℚ × ℚ) Y) : Homotopy X (ℚ × ℚ) Y where
  f := fun x => t.h x (1, 0, 0)
  g := fun x => t.h x (1, 1, 1)
  h := fun x s => t.h x (1, s.1, s.2)

/-- Modelled from the spec: `Top` on a 3D homotopy pins axis 1 to 0. -/
def Top3 {X Y : Type} (t : Homotopy X (ℚ × ℚ × ℚ) Y) : Homotopy X (ℚ × ℚ) Y where
  f := fun x => t.h x (0, 0, 0)
  g := fun x => t.h x (1, 0, 1)
  h := fun x s => t.h x (s.1, 0, s.2)

/-- Modelled from the spec: `Bottom` on a 3D homotopy pins axis 1 to 1. -/
def Bottom3 {X Y : Type} (t : Homotopy X (ℚ × ℚ × ℚ) Y) : Homotopy X (ℚ × ℚ) Y where
  f := fun x => t.h x (0, 1, 0)
  g := fun x => t.h x (1, 1, 1)
  h := fun x s => t.h x (s.1, 1, s.2)

/-- Modelled from the spec: `Front` on a 3D homotopy pins axis 2 (front/back) to 0. -/
def Front3 {X Y : Type} (t : Homotopy X (ℚ × ℚ × ℚ) Y) : Homotopy X (ℚ × ℚ) Y where
  f := fun x => t.h x (0, 0, 0)
  g := fun x => t.h x (1, 1, 0)
  h := fun x s => t.h x (s.1, s.2, 0)

/-- Modelled from the spec: `Back` on a 3D homotopy pins axis 2 to 1. -/
def Back3 {X Y : Type} (t : Homotopy X (ℚ × ℚ × ℚ) Y) : Homotopy X (ℚ × ℚ) Y where
  f := fun x => t.h x (0, 0, 1)
  g := fun x => t.h x (1, 1, 1)
  h := fun x s => t.h x (s.1, s.2, 1)

/-- Modelled from the spec: `Left` on a 4D homotopy pins axis 0 to 0. -/
def Left4 {X Y : Type} (t : Homotopy X (ℚ × ℚ × ℚ × ℚ) Y) : Homotopy X (ℚ × ℚ × ℚ) Y where
  f := fun x => t.h x (0, 0, 0, 0)
  g := fun x => t.h x (0, 1, 1, 1)
  h := fun x s => t.h x (0, s.1, s.2.1, s.2.2)

/-- Modelled from the spec: `Right` on a 4D homotopy pins axis 0 to 1. -/
def Right4 {X Y : Type} (t : Homotopy X (ℚ × ℚ × ℚ × ℚ) Y) : Homotopy X (ℚ × ℚ × ℚ) Y where
  f := fun x => t.h x (1, 0, 0, 0)
  g := fun x => t.h x (1, 1, 1, 1)
  h := fun x s => t.h x (1, s.1, s.2.1, s.2.2)

/-- Modelled from the spec: `Top` on a 4D homotopy pins axis 1 to 0. -/
def Top4 {X Y : Type} (t : Homotopy X (ℚ × ℚ × ℚ × ℚ) Y) : Homotopy X (ℚ × ℚ × ℚ) Y where
  f := fun x => t.h x (0, 0, 0, 0)
  g := fun x => t.h x (1, 0, 1, 1)
  h := fun x s => t.h x (s.1, 0, s.2.1, s.2.2)

/-- Modelled from the spec: `Bottom` on a 4D homotopy pins axis 1 to 1. -/
def Bottom4 {X Y : Type} (t : Homotopy X (ℚ × ℚ × ℚ × ℚ) Y) : Homotopy X (ℚ × ℚ × ℚ) Y where
  f := fun x => t.h x (0, 1, 0, 0)
  g := fun x => t.h x (1, 1, 1, 1)
  h := fun x s => t.h x (s.1, 1, s.2.1, s.2.2)

/-- Modelled from the spec: `Front` on a 4D homotopy pins axis 2 to 0. -/
def Front4 {X Y : Type} (t : Homotopy X (ℚ × ℚ × ℚ × ℚ) Y) : Homotopy X (ℚ × ℚ × ℚ) Y where
  f := fun x => t.h x (0, 0, 0, 0)
  g := fun x => t.h x (1, 1, 0, 1)
  h := fun x s => t.h x (s.1, s.2.1, 0, s.2.2)

/-- Modelled from the spec: `Back` on a 4D homotopy pins axis 2 to 1. -/
def Back4 {X Y : Type} (t : Homotopy X (ℚ × ℚ × ℚ × ℚ) Y) : Homotopy X (ℚ × ℚ × ℚ) Y where
  f := fun x => t.h x (0, 0, 1, 0)
  g := fun x => t.h x (1, 1, 1, 1)
  h := fun x s => t.h x (s.1, s.2.1, 1, s.2.2)

/-- Modelled from the spec: `Past` on a 4D homotopy pins axis 3 (past/future) to 0. -/
def Past4 {X Y : Type} (t : Homotopy X (ℚ × ℚ × ℚ × ℚ) Y) : Homotopy X (ℚ × ℚ × ℚ) Y where
  f := fun x => t.h x (0, 0, 0, 0)
  g := fun x => t.h x (1, 1, 1, 0)
  h := fun x s => t.h x (s.1, s.2.1, s.2.2, 0)

/-- Modelled from the spec: `Future` on a 4D homotopy pins axis 3 to 1. -/
def Future4 {X Y : Type} (t : Homotopy X (ℚ × ℚ × ℚ × ℚ) Y) : Homotopy X (ℚ × ℚ × ℚ) Y where
  f := fun x => t.h x (0, 0, 0, 1)
  g := fun x => t.h x (1, 1, 1, 1)
  h := fun x s => t.h x (s.1, s.2.1, s.2.2, 1)

/-- Modelled from the spec: the slice `LeftRight(s)` on a 2D homotopy pins
axis 0 to an arbitrary value `s`; the slice's `f` and `g` put the remaining
axis at 0 and 1. -/
def LeftRight2 {X Y : Type} (t : Homotopy X (ℚ × ℚ) Y) (s : ℚ) : Homotopy X ℚ Y where
  f := fun x => t.h x (s, 0)
  g := fun x => t.h x (s, 1)
  h := fun x u => t.h x (s, u)

/-- Modelled from the spec: the slice `TopBottom(s)` on a 2D homotopy pins
axis 1 to an arbitrary value `s`. -/
def TopBottom2 {X Y : Type} (t : Homotopy X (ℚ × ℚ) Y) (s : ℚ) : Homotopy X ℚ Y where
  f := fun x => t.h x (0, s)
  g := fun x => t.h x (1, s)
  h := fun x u => t.h x (u, s)

/-- Modelled from the spec: the slice `LeftRight(s)` on a 3D homotopy pins
axis 0 to an arbitrary value `s`; the slice's `f` and `g` put the remaining
axes at all-zero and all-one. -/
def LeftRight3 {X Y : Type} (t : Homotopy X (ℚ × ℚ × ℚ) Y) (s : ℚ) :
    Homotopy X (ℚ × ℚ) Y where
  f := fun x => t.h x (s, 0, 0)
  g := fun x => t.h x (s, 1, 1)
  h := fun x u => t.h x (s, u.1, u.2)

/-- Modelled from the spec: the slice `TopBottom(s)` on a 3D homotopy pins
axis 1 to an arbitrary value `s`. -/
def TopBottom3 {X Y : Type} (t : Homotopy X (ℚ × ℚ × ℚ) Y) (s : ℚ) :
    Homotopy X (ℚ × ℚ) Y where
  f := fun x => t.h x (0, s, 0)
  g := fun x => t.h x (1, s, 1)
  h := fun x u => t.h x (u.1, s, u.2)

/-- Modelled from the spec: the slice `FrontBack(s)` on a 3D homotopy pins
axis 2 to an arbitrary value `s`. -/
def FrontBack3 {X Y : Type} (t : Homotopy X (ℚ × ℚ × ℚ) Y) (s : ℚ) :
    Homotopy X (ℚ × ℚ) Y where
  f := fun x => t.h x (0, 0, s)
  g := fun x => t.h x (1, 1, s)
  h := fun x u => t.h x (u.1, u.2, s)

/-- Modelled from the spec: the slice `LeftRight(s)` on a 4D homotopy pins
axis 0 to an arbitrary value `s`. -/
def LeftRight4 {X Y : Type} (t : Homotopy X (ℚ × ℚ × ℚ × ℚ) Y) (s : ℚ) :
    Homotopy X (ℚ × ℚ × ℚ) Y where
  f := fun x => t.h x (s, 0, 0, 0)
  g := fun x => t.h x (s, 1, 1, 1)
  h := fun x u => t.h x (s, u.1, u.2.1, u.2.2)

/-- Modelled from the spec: the slice `TopBottom(s)` on a 4D homotopy pins
axis 1 to an arbitrary value `s`. -/
def TopBottom4 {X Y : Type} (t : Homotopy X (ℚ × ℚ × ℚ × ℚ) Y) (s : ℚ) :
    Homotopy X (ℚ × ℚ × ℚ) Y where
  f := fun x => t.h x (0, s, 0, 0)
  g := fun x => t.h x (1, s, 1, 1)
  h := fun x u => t.h x (u.1, s, u.2.1, u.2.2)

/-- Modelled from the spec: the slice `FrontBack(s)` on a 4D homotopy pins
axis 2 to an arbitrary value `s`. -/
def FrontBack4 {X Y : Type} (t : Homotopy X (ℚ × ℚ × ℚ × ℚ) Y) (s : ℚ) :
    Homotopy X (ℚ × ℚ × ℚ) Y where
  f := fun x => t.h x (0, 0, s, 0)
  g := fun x => t.h x (1, 1, s, 1)
  h := fun x u => t.h x (u.1, u.2.1, s, u.2.2)

/-- Modelled from the spec: the slice `PastFuture(s)` on a 4D homotopy pins
axis 3 to an arbitrary value `s`. -/
def PastFuture4 {X Y : Type} (t : Homotopy X (ℚ × ℚ × ℚ × ℚ) Y) (s : ℚ) :
    Homotopy X (ℚ × ℚ × ℚ) Y where
  f := fun x => t.h x (0, 0, 0, s)
  g := fun x => t.h x (1, 1, 1, s)
  h := fun x u => t.h x (u.1, u.2.1, u.2.2, s)

/-- Modelled from the spec: the `compose` module's `Compose::new(a, b)` for two
scalar-parameter homotopies (its file is not among the repository's sources).
The parameter space is the concatenation: the leading prefix drives `a`, the
trailing suffix drives `b`; `f = b.f ∘ a.f`, `g = b.g ∘ a.g`. -/
def Compose11 {X Y Z : Type} (a : Homotopy X ℚ Y) (b : Homotopy Y ℚ Z) :
    Homotopy X (ℚ × ℚ) Z where
  f := fun x => b.f (a.f x)
  g := fun x => b.g (a.g x)
  h := fun x s => b.h (a.h x s.1) s.2

/-- Modelled from the spec: `Compose::new(a, b)` for a 2-axis `a` and a scalar
`b`, giving the 3-axis concatenation. -/
def Compose21 {X Y Z : Type} (a : Homotopy X (ℚ × ℚ) Y) (b : Homotopy Y ℚ Z) :
    Homotopy X (ℚ × ℚ × ℚ) Z where
  f := fun x => b.f (a.f x)
  g := fun x => b.g (a.g x)
  h := fun x s => b.h (a.h x (s.1, s.2.1)) s.2.2

/-- Modelled from the spec: `Compose::new(a, b)` for a 3-axis `a` and a scalar
`b`, giving the 4-axis concatenation. -/
def Compose31 {X Y Z : Type} (a : Homotopy X (ℚ × ℚ × ℚ) Y) (b : Homotopy Y ℚ Z) :
    Homotopy X (ℚ × ℚ × ℚ × ℚ) Z where
  f := fun x => b.f (a.f x)
  g := fun x => b.g (a.g x)
  h := fun x s => b.h (a.h x (s.1, s.2.1, s.2.2.1)) s.2.2.2

/-- Modelled from the spec: `Compose::new(a, b)` for a 4-axis `a` and a scalar
`b`, giving the 5-axis concatenation. -/
def Compose41 {X Y Z : Type} (a : Homotopy X (ℚ × ℚ × ℚ × ℚ) Y) (b : Homotopy Y ℚ Z) :
    Homotopy X (ℚ × ℚ × ℚ × ℚ × ℚ) Z where
  f := fun x => b.f (a.f x)
  g := fun x => b.g (a.g x)
  h := fun x s => b.h (a.h x (s.1, s.2.1, s.2.2.1, s.2.2.2.1)) s.2.2.2.2

/-- The contract checker `check`: `h(x, 0.0) == f(x) && h(x, 1.0) == g(x)`. -/
def check {X Y : Type} [DecidableEq Y] (t : Homotopy X ℚ Y) (x : X) : Bool :=
  (t.h x 0 == t.f x) && (t.h x 1 == t.g x)

/-- The 2D contract checker `check2`: the full corners, then `check` on the
four extracted faces. -/
def check2 {X Y : Type} [DecidableEq Y] (t : Homotopy X (ℚ × ℚ) Y) (x : X) : Bool :=
  (t.h x (0, 0) == t.f x) && (t.h x (1, 1) == t.g x) &&
  check (Left2 t) x && check (Right2 t) x && check (Top2 t) x && check (Bottom2 t) x

/-- The 3D contract checker `check3`: the full corners, then `check2` on the
six extracted faces. -/
def check3 {X Y : Type} [DecidableEq Y] (t : Homotopy X (ℚ × ℚ × ℚ) Y) (x : X) : Bool :=
  (t.h x (0, 0, 0) == t.f x) && (t.h x (1, 1, 1) == t.g x) &&
  check2 (Left3 t) x && check2 (Right3 t) x && check2 (Top3 t) x &&
  check2 (Bottom3 t) x && check2 (Front3 t) x && check2 (Back3 t) x

/-- The 4D contract checker `check4`: the full corners, then `check3` on the
eight extracted faces. -/
def check4 {X Y : Type} [DecidableEq Y] (t : Homotopy X (ℚ × ℚ × ℚ × ℚ) Y) (x : X) : Bool :=
  (t.h x (0, 0, 0, 0) == t.f x) && (t.h x (1, 1, 1, 1) == t.g x) &&
  check3 (Left4 t) x && check3 (Right4 t) x && check3 (Top4 t) x &&
  check3 (Bottom4 t) x && check3 (Front4 t) x && check3 (Back4 t) x &&
  check3 (Past4 t) x && check3 (Future4 t) x

/-- `AsVec` at arity 3: reinterprets a triple-valued homotopy as vector-valued
(`[Y; 3]` modelled as `Fin 3 → Y`), changing no evaluated value. -/
def AsVec3 {X S Y : Type} (t : Homotopy (X × X × X) S (Y × Y × Y)) :
    Homotopy (Fin 3 → X) S (Fin 3 → Y) where
  f := fun x => ![(t.f (x 0, x 1, x 2)).1, (t.f (x 0, x 1, x 2)).2.1,
    (t.f (x 0, x 1, x 2)).2.2]
  g := fun x => ![(t.g (x 0, x 1, x 2)).1, (t.g (x 0, x 1, x 2)).2.1,
    (t.g (x 0, x 1, x 2)).2.2]
  h := fun x s => ![(t.h (x 0, x 1, x 2) s).1, (t.h (x 0, x 1, x 2) s).2.1,
    (t.h (x 0, x 1, x 2) s).2.2]

/-- `AsVec` at arity 4: reinterprets a quadruple-valued homotopy as
vector-valued (`[Y; 4]` modelled as `Fin 4 → Y`), changing no evaluated value. -/
def AsVec4 {X S Y : Type} (t : Homotopy (X × X × X × X) S (Y × Y × Y × Y)) :
    Homotopy (Fin 4 → X) S (Fin 4 → Y) where
  f := fun x => ![(t.f (x 0, x 1, x 2, x 3)).1, (t.f (x 0, x 1, x 2, x 3)).2.1,
    (t.f (x 0, x 1, x 2, x 3)).2.2.1, (t.f (x 0, x 1, x 2, x 3)).2.2.2]
  g := fun x => ![(t.g (x 0, x 1, x 2, x 3)).1, (t.g (x 0, x 1, x 2, x 3)).2.1,
    (t.g (x 0, x 1, x 2, x 3)).2.2.1, (t.g (x 0, x 1, x 2, x 3)).2.2.2]
  h := fun x s => ![(t.h (x 0, x 1, x 2, x 3) s).1, (t.h (x 0, x 1, x 2, x 3) s).2.1,
    (t.h (x 0, x 1, x 2, x 3) s).2.2.1, (t.h (x 0, x 1, x 2, x 3) s).2.2.2]

/-- The `Vec<T>` homotopy at input `usize`, `f` component: direct indexing;
the panic on an out-of-range index is modelled as `none`. -/
def vecF {S Y : Type} (l : List (Homotopy Unit S Y)) (ind : ℕ) : Option Y :=
  (l[ind]?).map fun t => t.f ()

/-- The `Vec<T>` homotopy at input `usize`, `g` component. -/
def vecG {S Y : Type} (l : List (Homotopy Unit S Y)) (ind : ℕ) : Option Y :=
  (l[ind]?).map fun t => t.g ()

/-- The `Vec<T>` homotopy at input `usize`, `h` component. -/
def vecH {S Y : Type} (l : List (Homotopy Unit S Y)) (ind : ℕ) (s : S) : Option Y :=
  (l[ind]?).map fun t => t.h () s

/-- The `Vec<T>` homotopy at input `(usize, X)`, `f` component. -/
def vecFP {X S Y : Type} (l : List (Homotopy X S Y)) (p : ℕ × X) : Option Y :=
  (l[p.1]?).map fun t => t.f p.2

/-- The `Vec<T>` homotopy at input `(usize, X)`, `g` component. -/
def vecGP {X S Y : Type} (l : List (Homotopy X S Y)) (p : ℕ × X) : Option Y :=
  (l[p.1]?).map fun t => t.g p.2

/-- The `Vec<T>` homotopy at input `(usize, X)`, `h` component. -/
def vecHP {X S Y : Type} (l : List (Homotopy X S Y)) (p : ℕ × X) (s : S) : Option Y :=
  (l[p.1]?).map fun t => t.h p.2 s

/-- C1: the boundary contract: every primitive homotopy of the library
satisfies `h x start = f x` and `h x end = g x` (start = 0 or the all-zero
tuple, end = 1 or the all-one tuple), and every combinator preserves it:
products, maps, sequential composition and diagonals under the contract for
their inner homotopies, and faces and slices unconditionally — covering every
arity the library provides (Translate and AsVec up to the `[f64; 4]`
instances, SMap for inner dimensions 1-3, Compose for 1- to 4-axis first
stages, and the full sides family on 2D, 3D and 4D homotopies). -/
theorem boundary_contract :
    (∀ (X S : Type) (s0 s1 : S), BoundaryAt s0 s1 (IdH X S)) ∧
    BoundaryAt (0 : ℚ) 1 Dirac ∧
    (∀ (X Y : Type) (fx gx : X → Y), BoundaryAt (0 : ℚ) 1 (DiracFrom fx gx)) ∧
    BoundaryAt (F64.fin 0) (F64.fin 1) DiracF ∧
    (∀ (X Y : Type) (fx gx : X → Y),
      BoundaryAt (F64.fin 0) (F64.fin 1) (DiracFromF fx gx)) ∧
    (∀ a b : ℚ, BoundaryAt (0 : ℚ) 1 (Lerp a b)) ∧
    (∀ a b c : ℚ, BoundaryAt (0 : ℚ) 1 (QuadraticBezier a b c)) ∧
    (∀ a b : ℚ, BoundaryAt (0 : ℚ) 1 (QuadraticBezier.from_linear a b)) ∧
    (∀ a b c d : ℚ, BoundaryAt (0 : ℚ) 1 (CubicBezier a b c d)) ∧
    (∀ (c : ℝ × ℝ) (r : ℝ), BoundaryAt (0 : ℝ) 1 (Circle c r)) ∧
    (∀ d : ℚ, BoundaryAt (0 : ℚ) 1 (Translate d)) ∧
    (∀ d : ℚ × ℚ, BoundaryAt (0 : ℚ) 1 (Translate2 d)) ∧
    (∀ (X Y : Type) (t : Homotopy X ℚ Y),
      BoundaryAt 0 1 t → BoundaryAt (0 : ℚ) 1 (Inverse t)) ∧
    (∀ (X1 X2 Y1 Y2 : Type) (t1 : Homotopy X1 ℚ Y1) (t2 : Homotopy X2 ℚ Y2),
      BoundaryAt 0 1 t1 → BoundaryAt 0 1 t2 →
      BoundaryAt ((0 : ℚ), (0 : ℚ)) (1, 1) (Square t1 t2)) ∧
    (∀ (X1 X2 X3 Y1 Y2 Y3 : Type) (t1 : Homotopy X1 ℚ Y1) (t2 : Homotopy X2 ℚ Y2)
      (t3 : Homotopy X3 ℚ Y3),
      BoundaryAt 0 1 t1 → BoundaryAt 0 1 t2 → BoundaryAt 0 1 t3 →
      BoundaryAt ((0 : ℚ), (0 : ℚ), (0 : ℚ)) (1, 1, 1) (Cube t1 t2 t3)) ∧
    (∀ (X1 X2 X3 X4 Y1 Y2 Y3 Y4 : Type) (t1 : Homotopy X1 ℚ Y1) (t2 : Homotopy X2 ℚ Y2)
      (t3 : Homotopy X3 ℚ Y3) (t4 : Homotopy X4 ℚ Y4),
      BoundaryAt 0 1 t1 → BoundaryAt 0 1 t2 → BoundaryAt 0 1 t3 → BoundaryAt 0 1 t4 →
      BoundaryAt ((0 : ℚ), (0 : ℚ), (0 : ℚ), (0 : ℚ)) (1, 1, 1, 1) (Cube4 t1 t2 t3 t4)) ∧
    (∀ (X S Y1 Y2 : Type) (s0 s1 : S) (t : Homotopy X S Y1) (fn : Y1 → Y2),
      BoundaryAt s0 s1 t → BoundaryAt s0 s1 (Map t fn)) ∧
    (∀ (X Y1 Y2 : Type) (t : Homotopy X ℚ Y1) (fn : Y1 → ℚ → Y2),
      BoundaryAt 0 1 t → BoundaryAt ((0 : ℚ), (0 : ℚ)) (1, 1) (SMap2 t fn)) ∧
    (∀ (X Y1 Y2 : Type) (t : Homotopy X (ℚ × ℚ) Y1) (fn : Y1 → ℚ → Y2),
      BoundaryAt (0, 0) (1, 1) t →
      BoundaryAt ((0 : ℚ), (0 : ℚ), (0 : ℚ)) (1, 1, 1) (SMap3 t fn)) ∧
    (∀ (X Y1 Y2 : Type) (t : Homotopy X (ℚ × ℚ × ℚ) Y1) (fn : Y1 → ℚ → Y2),
      BoundaryAt (0, 0, 0) (1, 1, 1) t →
      BoundaryAt ((0 : ℚ), (0 : ℚ), (0 : ℚ), (0 : ℚ)) (1, 1, 1, 1) (SMap4 t fn)) ∧
    (∀ (X S Y : Type) (s0 s1 : S) (t : Homotopy (X × X) S (Y × Y)),
      BoundaryAt s0 s1 t → BoundaryAt s0 s1 (AsVec2 t)) ∧
    (∀ (X Y Z : Type) (a : Homotopy X ℚ Y) (b : Homotopy Y ℚ Z),
      BoundaryAt 0 1 a → BoundaryAt 0 1 b →
      BoundaryAt ((0 : ℚ), (0 : ℚ)) (1, 1) (Compose11 a b)) ∧
    (∀ (X Y Z : Type) (a : Homotopy X (ℚ × ℚ) Y) (b : Homotopy Y ℚ Z),
      BoundaryAt (0, 0) (1, 1) a → BoundaryAt 0 1 b →
      BoundaryAt ((0 : ℚ), (0 : ℚ), (0 : ℚ)) (1, 1, 1) (Compose21 a b)) ∧
    (∀ (X Y : Type) (t : Homotopy X (ℚ × ℚ) Y),
      BoundaryAt (0, 0) (1, 1) t → BoundaryAt (0 : ℚ) 1 (Diagonal2 t)) ∧
    (∀ (X Y : Type) (t : Homotopy X (ℚ × ℚ) Y),
      BoundaryAt (0 : ℚ) 1 (Left2 t) ∧ BoundaryAt (0 : ℚ) 1 (Right2 t) ∧
      BoundaryAt (0 : ℚ) 1 (Top2 t) ∧ BoundaryAt (0 : ℚ) 1 (Bottom2 t)) ∧
    (∀ (X Y : Type) (t : Homotopy X (ℚ × ℚ × ℚ) Y),
      BoundaryAt ((0 : ℚ), (0 : ℚ)) (1, 1) (Left3 t) ∧
      BoundaryAt ((0 : ℚ), (0 : ℚ)) (1, 1) (Right3 t) ∧
      BoundaryAt ((0 : ℚ), (0 : ℚ)) (1, 1) (Top3 t) ∧
      BoundaryAt ((0 : ℚ), (0 : ℚ)) (1, 1) (Bottom3 t) ∧
      BoundaryAt ((0 : ℚ), (0 : ℚ)) (1, 1) (Front3 t) ∧
      BoundaryAt ((0 : ℚ), (0 : ℚ)) (1, 1) (Back3 t)) ∧
    (∀ (X Y : Type) (t : Homotopy X (ℚ × ℚ × ℚ × ℚ) Y),
      BoundaryAt ((0 : ℚ), (0 : ℚ), (0 : ℚ)) (1, 1, 1) (Left4 t) ∧
      BoundaryAt ((0 : ℚ), (0 : ℚ), (0 : ℚ)) (1, 1, 1) (Right4 t) ∧
      BoundaryAt ((0 : ℚ), (0 : ℚ), (0 : ℚ)) (1, 1, 1) (Top4 t) ∧
      BoundaryAt ((0 : ℚ), (0 : ℚ), (0 : ℚ)) (1, 1, 1) (Bottom4 t) ∧
      BoundaryAt ((0 : ℚ), (0 : ℚ), (0 : ℚ)) (1, 1, 1) (Front4 t) ∧
      BoundaryAt ((0 : ℚ), (0 : ℚ), (0 : ℚ)) (1, 1, 1) (Back4 t) ∧
      BoundaryAt ((0 : ℚ), (0 : ℚ), (0 : ℚ)) (1, 1, 1) (Past4 t) ∧
      BoundaryAt ((0 : ℚ), (0 : ℚ), (0 : ℚ)) (1, 1, 1) (Future4 t)) ∧
    (∀ (X Y : Type) (t : Homotopy X (ℚ × ℚ) Y) (s : ℚ),
      BoundaryAt (0 : ℚ) 1 (LeftRight2 t s) ∧ BoundaryAt (0 : ℚ) 1 (TopBottom2 t s)) ∧
    (∀ d : ℚ × ℚ × ℚ, BoundaryAt (0 : ℚ) 1 (Translate3 d)) ∧
    (∀ d : ℚ × ℚ × ℚ × ℚ, BoundaryAt (0 : ℚ) 1 (Translate4 d)) ∧
    (∀ (X S Y : Type) (s0 s1 : S) (t : Homotopy (X × X × X) S (Y × Y × Y)),
      BoundaryAt s0 s1 t → BoundaryAt s0 s1 (AsVec3 t)) ∧
    (∀ (X S Y : Type) (s0 s1 : S) (t : Homotopy (X × X × X × X) S (Y × Y × Y × Y)),
      BoundaryAt s0 s1 t → BoundaryAt s0 s1 (AsVec4 t)) ∧
    (∀ (X Y : Type) (t : Homotopy X (ℚ × ℚ × ℚ) Y),
      BoundaryAt (0, 0, 0) (1, 1, 1) t → BoundaryAt (0 : ℚ) 1 (Diagonal3 t)) ∧
    (∀ (X Y : Type) (t : Homotopy X (ℚ × ℚ × ℚ × ℚ) Y),
      BoundaryAt (0, 0, 0, 0) (1, 1, 1, 1) t → BoundaryAt (0 : ℚ) 1 (Diagonal4 t)) ∧
    (∀ (X Y Z : Type) (a : Homotopy X (ℚ × ℚ × ℚ) Y) (b : Homotopy Y ℚ Z),
      BoundaryAt (0, 0, 0) (1, 1, 1) a → BoundaryAt 0 1 b →
      BoundaryAt ((0 : ℚ), (0 : ℚ), (0 : ℚ), (0 : ℚ)) (1, 1, 1, 1) (Compose31 a b)) ∧
    (∀ (X Y Z : Type) (a : Homotopy X (ℚ × ℚ × ℚ × ℚ) Y) (b : Homotopy Y ℚ Z),
      BoundaryAt (0, 0, 0, 0) (1, 1, 1, 1) a → BoundaryAt 0 1 b →
      BoundaryAt ((0 : ℚ), (0 : ℚ), (0 : ℚ), (0 : ℚ), (0 : ℚ)) (1, 1, 1, 1, 1)
        (Compose41 a b)) ∧
    (∀ (X Y : Type) (t : Homotopy X (ℚ × ℚ × ℚ) Y) (s : ℚ),
      BoundaryAt ((0 : ℚ), (0 : ℚ)) (1, 1) (LeftRight3 t s) ∧
      BoundaryAt ((0 : ℚ), (0 : ℚ)) (1, 1) (TopBottom3 t s) ∧
      BoundaryAt ((0 : ℚ), (0 : ℚ)) (1, 1) (FrontBack3 t s)) ∧
    (∀ (X Y : Type) (t : Homotopy X (ℚ × ℚ × ℚ × ℚ) Y) (s : ℚ),
      BoundaryAt ((0 : ℚ), (0 : ℚ), (0 : ℚ)) (1, 1, 1) (LeftRight4 t s) ∧
      BoundaryAt ((0 : ℚ), (0 : ℚ), (0 : ℚ)) (1, 1, 1) (TopBottom4 t s) ∧
      BoundaryAt ((0 : ℚ), (0 : ℚ), (0 : ℚ)) (1, 1, 1) (FrontBack4 t s) ∧
      BoundaryAt ((0 : ℚ), (0 : ℚ), (0 : ℚ)) (1, 1, 1) (PastFuture4 t s)) := by
  refine ⟨fun X S s0 s1 x => ⟨rfl, rfl⟩, fun x => ?_, fun X Y fx gx x => ?_, fun x => ?_,
    fun X Y fx gx x => ?_, fun a b x => ?_, fun a b c x => ?_, fun a b x => ?_,
    fun a b c d x => ?_, fun c r x => ?_, fun d x => ?_, fun d x => ?_,
    fun X Y t hb x => ?_, fun X1 X2 Y1 Y2 t1 t2 hb1 hb2 x => ?_,
    fun X1 X2 X3 Y1 Y2 Y3 t1 t2 t3 hb1 hb2 hb3 x => ?_,
    fun X1 X2 X3 X4 Y1 Y2 Y3 Y4 t1 t2 t3 t4 hb1 hb2 hb3 hb4 x => ?_,
    fun X S Y1 Y2 s0 s1 t fn hb x => ?_, fun X Y1 Y2 t fn hb x => ?_,
    fun X Y1 Y2 t fn hb x => ?_, fun X Y1 Y2 t fn hb x => ?_,
    fun X S Y s0 s1 t hb x => ?_, fun X Y Z a b ha hb2 x => ?_,
    fun X Y Z a b ha hb2 x => ?_, fun X Y t hb x => ⟨(hb x).1, (hb x).2⟩,
    fun X Y t => ⟨fun x => ⟨rfl, rfl⟩, fun x => ⟨rfl, rfl⟩, fun x => ⟨rfl, rfl⟩,
      fun x => ⟨rfl, rfl⟩⟩,
    fun X Y t => ⟨fun x => ⟨rfl, rfl⟩, fun x => ⟨rfl, rfl⟩, fun x => ⟨rfl, rfl⟩,
      fun x => ⟨rfl, rfl⟩, fun x => ⟨rfl, rfl⟩, fun x => ⟨rfl, rfl⟩⟩,
    fun X Y t => ⟨fun x => ⟨rfl, rfl⟩, fun x => ⟨rfl, rfl⟩, fun x => ⟨rfl, rfl⟩,
      fun x => ⟨rfl, rfl⟩, fun x => ⟨rfl, rfl⟩, fun x => ⟨rfl, rfl⟩,
      fun x => ⟨rfl, rfl⟩, fun x => ⟨rfl, rfl⟩⟩,
    fun X Y t s => ⟨fun x => ⟨rfl, rfl⟩, fun x => ⟨rfl, rfl⟩⟩,
    fun d x => ?_, fun d x => ?_, fun X S Y s0 s1 t hb x => ?_,
    fun X S Y s0 s1 t hb x => ?_, fun X Y t hb x => ⟨(hb x).1, (hb x).2⟩,
    fun X Y t hb x => ⟨(hb x).1, (hb x).2⟩, fun X Y Z a b ha hb2 x => ?_,
    fun X Y Z a b ha hb2 x => ?_,
    fun X Y t s => ⟨fun x => ⟨rfl, rfl⟩, fun x => ⟨rfl, rfl⟩, fun x => ⟨rfl, rfl⟩⟩,
    fun X Y t s => ⟨fun x => ⟨rfl, rfl⟩, fun x => ⟨rfl, rfl⟩, fun x => ⟨rfl, rfl⟩,
      fun x => ⟨rfl, rfl⟩⟩⟩
  · refine ⟨?_, ?_⟩ <;> norm_num [Dirac]
  · refine ⟨?_, ?_⟩ <;> norm_num [DiracFrom]
  · refine ⟨?_, ?_⟩ <;> simp [DiracF, F64.eq]
  · refine ⟨?_, ?_⟩ <;> simp [DiracFromF, F64.eq]
  · refine ⟨?_, ?_⟩ <;> simp [Lerp]
  · refine ⟨?_, ?_⟩ <;> simp [QuadraticBezier, Lerp]
  · refine ⟨?_, ?_⟩ <;> simp [QuadraticBezier.from_linear, QuadraticBezier, Lerp]
  · refine ⟨?_, ?_⟩ <;> simp [CubicBezier, Lerp]
  · refine ⟨?_, ?_⟩ <;> simp only [Circle] <;> norm_num
  · refine ⟨?_, ?_⟩ <;> simp [Translate]
  · refine ⟨?_, ?_⟩ <;> simp [Translate2]
  · refine ⟨?_, ?_⟩ <;> simp [Inverse, (hb x).1, (hb x).2]
  · refine ⟨?_, ?_⟩ <;>
      simp [Square, (hb1 x.1).1, (hb1 x.1).2, (hb2 x.2).1, (hb2 x.2).2]
  · refine ⟨?_, ?_⟩ <;>
      simp [Cube, (hb1 x.1).1, (hb1 x.1).2, (hb2 x.2.1).1, (hb2 x.2.1).2,
        (hb3 x.2.2).1, (hb3 x.2.2).2]
  · refine ⟨?_, ?_⟩ <;>
      simp [Cube4, (hb1 x.1).1, (hb1 x.1).2, (hb2 x.2.1).1, (hb2 x.2.1).2,
        (hb3 x.2.2.1).1, (hb3 x.2.2.1).2, (hb4 x.2.2.2).1, (hb4 x.2.2.2).2]
  · refine ⟨?_, ?_⟩ <;> simp [Map, (hb x).1, (hb x).2]
  · refine ⟨?_, ?_⟩
    · show fn (t.h x 0) 0 = fn (t.f x) 0
      rw [(hb x).1]
    · show fn (t.h x 1) 1 = fn (t.g x) 1
      rw [(hb x).2]
  · refine ⟨?_, ?_⟩
    · show fn (t.h x (0, 0)) 0 = fn (t.f x) 0
      rw [(hb x).1]
    · show fn (t.h x (1, 1)) 1 = fn (t.g x) 1
      rw [(hb x).2]
  · refine ⟨?_, ?_⟩
    · show fn (t.h x (0, 0, 0)) 0 = fn (t.f x) 0
      rw [(hb x).1]
    · show fn (t.h x (1, 1, 1)) 1 = fn (t.g x) 1
      rw [(hb x).2]
  · refine ⟨?_, ?_⟩ <;> simp [AsVec2, (hb (x 0, x 1)).1, (hb (x 0, x 1)).2]
  · refine ⟨?_, ?_⟩
    · show b.h (a.h x 0) 0 = b.f (a.f x)
      rw [(ha x).1, (hb2 (a.f x)).1]
    · show b.h (a.h x 1) 1 = b.g (a.g x)
      rw [(ha x).2, (hb2 (a.g x)).2]
  · refine ⟨?_, ?_⟩
    · show b.h (a.h x (0, 0)) 0 = b.f (a.f x)
      rw [(ha x).1, (hb2 (a.f x)).1]
    · show b.h (a.h x (1, 1)) 1 = b.g (a.g x)
      rw [(ha x).2, (hb2 (a.g x)).2]
  · refine ⟨?_, ?_⟩ <;> simp [Translate3]
  · refine ⟨?_, ?_⟩ <;> simp [Translate4]
  · refine ⟨?_, ?_⟩ <;>
      simp [AsVec3, (hb (x 0, x 1, x 2)).1, (hb (x 0, x 1, x 2)).2]
  · refine ⟨?_, ?_⟩ <;>
      simp [AsVec4, (hb (x 0, x 1, x 2, x 3)).1, (hb (x 0, x 1, x 2, x 3)).2]
  · refine ⟨?_, ?_⟩
    · show b.h (a.h x (0, 0, 0)) 0 = b.f (a.f x)
      rw [(ha x).1, (hb2 (a.f x)).1]
    · show b.h (a.h x (1, 1, 1)) 1 = b.g (a.g x)
      rw [(ha x).2, (hb2 (a.g x)).2]
  · refine ⟨?_, ?_⟩
    · show b.h (a.h x (0, 0, 0, 0)) 0 = b.f (a.f x)
      rw [(ha x).1, (hb2 (a.f x)).1]
    · show b.h (a.h x (1, 1, 1, 1)) 1 = b.g (a.g x)
      rw [(ha x).2, (hb2 (a.g x)).2]

/-- C2: the circle homotopy takes exact coordinate values at the canonical
parameters: `(cx + r, cy)` at `s = 0` and `s = 1`, `(cx, cy + r)` at `1/4`,
`(cx − r, cy)` at `1/2`, `(cx, cy − r)` at `3/4`; in particular the unit
circle at the origin yields `(1,0)`, `(1,0)`, `(0,1)`, `(−1,0)`, `(0,−1)`
at those parameters. -/
theorem circle_canonical_points :
    ∀ (cx cy r : ℝ),
      (Circle (cx, cy) r).h () 0 = (cx + r, cy) ∧
      (Circle (cx, cy) r).h () 1 = (cx + r, cy) ∧
      (Circle (cx, cy) r).h () (1/4) = (cx, cy + r) ∧
      (Circle (cx, cy) r).h () (1/2) = (cx - r, cy) ∧
      (Circle (cx, cy) r).h () (3/4) = (cx, cy - r) ∧
      (Circle (0, 0) 1).h () 0 = (1, 0) ∧
      (Circle (0, 0) 1).h () 1 = (1, 0) ∧
      (Circle (0, 0) 1).h () (1/4) = (0, 1) ∧
      (Circle (0, 0) 1).h () (1/2) = (-1, 0) ∧
      (Circle (0, 0) 1).h () (3/4) = (0, -1) := by
  intro cx cy r
  refine ⟨?_, ?_, ?_, ?_, ?_, ?_, ?_, ?_, ?_, ?_⟩ <;>
    simp only [Circle] <;> norm_num

/-- C3: sequential composition concatenates parameter spaces and applies the
slots left to right: `Compose(Compose(A,B),B).h x (s0,s1,s2) = B.h (B.h (A.h x
s0) s1) s2`; concretely with `A = Lerp 1 2` and `B = Translate 10` the default
evaluation yields `1` at `(0,0,0)`, `11` at `(0,0,1)` and `22` at `(1,1,1)`. -/
theorem compose_parameter_order :
    (∀ (X Y : Type) (a : Homotopy X ℚ Y) (b : Homotopy Y ℚ Y) (x : X) (s0 s1 s2 : ℚ),
      (Compose21 (Compose11 a b) b).h x (s0, s1, s2) = b.h (b.h (a.h x s0) s1) s2) ∧
    (Compose21 (Compose11 (Lerp 1 2) (Translate 10)) (Translate 10)).hu (0, 0, 0) = 1 ∧
    (Compose21 (Compose11 (Lerp 1 2) (Translate 10)) (Translate 10)).hu (0, 0, 1) = 11 ∧
    (Compose21 (Compose11 (Lerp 1 2) (Translate 10)) (Translate 10)).hu (1, 1, 1) = 22 := by
  refine ⟨fun X Y a b x s0 s1 s2 => rfl, ?_, ?_, ?_⟩ <;>
    norm_num [Homotopy.hu, Compose21, Compose11, Lerp, Translate]

/-- C4: inverse involution: for every scalar-parameter homotopy,
`inverse (inverse H)` evaluates identically to `H` in `f`, `g` and `h`. -/
theorem inverse_involution :
    ∀ (X Y : Type) (t : Homotopy X ℚ Y) (x : X) (s : ℚ),
      (Inverse (Inverse t)).f x = t.f x ∧
      (Inverse (Inverse t)).g x = t.g x ∧
      (Inverse (Inverse t)).h x s = t.h x s := by
  intro X Y t x s
  refine ⟨rfl, rfl, ?_⟩
  show t.h x (1 - (1 - s)) = t.h x s
  norm_num

/-- C5: a quadratic Bezier built with `from_linear a b` equals linear
interpolation of `a` and `b` at every parameter. -/
theorem from_linear_eq_lerp :
    ∀ a b s : ℚ, (QuadraticBezier.from_linear a b).h () s = (Lerp a b).h () s := by
  intro a b s
  simp only [QuadraticBezier.from_linear, QuadraticBezier, Lerp]
  ring

/-- C6: a cubic Bezier built with `from_quadratic a b c` equals the quadratic
Bezier `(a, b, c)` at every parameter. -/
theorem from_quadratic_eq_quadratic_bezier :
    ∀ a b c s : ℚ,
      (CubicBezier.from_quadratic a b c).h () s = (QuadraticBezier a b c).h () s := by
  intro a b c s
  rfl

/-- C7: the scalar-map lift: for each supported inner dimension, the first
axes drive the inner homotopy unchanged and the final axis is consumed by the
combining function; `f` pairs with `0`, `g` with `1`. -/
theorem smap_lift :
    (∀ (X Y1 Y2 : Type) (t : Homotopy X ℚ Y1) (fn : Y1 → ℚ → Y2) (x : X) (s : ℚ × ℚ),
      (SMap2 t fn).f x = fn (t.f x) 0 ∧ (SMap2 t fn).g x = fn (t.g x) 1 ∧
      (SMap2 t fn).h x s = fn (t.h x s.1) s.2) ∧
    (∀ (X Y1 Y2 : Type) (t : Homotopy X (ℚ × ℚ) Y1) (fn : Y1 → ℚ → Y2) (x : X)
      (s : ℚ × ℚ × ℚ),
      (SMap3 t fn).f x = fn (t.f x) 0 ∧ (SMap3 t fn).g x = fn (t.g x) 1 ∧
      (SMap3 t fn).h x s = fn (t.h x (s.1, s.2.1)) s.2.2) ∧
    (∀ (X Y1 Y2 : Type) (t : Homotopy X (ℚ × ℚ × ℚ) Y1) (fn : Y1 → ℚ → Y2) (x : X)
      (s : ℚ × ℚ × ℚ × ℚ),
      (SMap4 t fn).f x = fn (t.f x) 0 ∧ (SMap4 t fn).g x = fn (t.g x) 1 ∧
      (SMap4 t fn).h x s = fn (t.h x (s.1, s.2.1, s.2.2.1)) s.2.2.2) :=
  ⟨fun _ _ _ _ _ _ _ => ⟨rfl, rfl, rfl⟩, fun _ _ _ _ _ _ _ => ⟨rfl, rfl, rfl⟩,
   fun _ _ _ _ _ _ _ => ⟨rfl, rfl, rfl⟩⟩

/-- C8: the checkers recurse by corners and opposite faces: `check` compares
`h` at 0 and 1 directly against `f` and `g`; `check2`, `check3` and `check4`
pass exactly when the full corners match and the lower checker passes on each
opposite face pair applicable to the dimension. -/
theorem check_recursion :
    ∀ (X Y : Type) (_inst : DecidableEq Y),
      (∀ (t : Homotopy X ℚ Y) (x : X),
        check t x = true ↔ (t.h x 0 = t.f x ∧ t.h x 1 = t.g x)) ∧
      (∀ (t : Homotopy X (ℚ × ℚ) Y) (x : X),
        check2 t x = true ↔
          (t.h x (0, 0) = t.f x ∧ t.h x (1, 1) = t.g x ∧
           check (Left2 t) x = true ∧ check (Right2 t) x = true ∧
           check (Top2 t) x = true ∧ check (Bottom2 t) x = true)) ∧
      (∀ (t : Homotopy X (ℚ × ℚ × ℚ) Y) (x : X),
        check3 t x = true ↔
          (t.h x (0, 0, 0) = t.f x ∧ t.h x (1, 1, 1) = t.g x ∧
           check2 (Left3 t) x = true ∧ check2 (Right3 t) x = true ∧
           check2 (Top3 t) x = true ∧ check2 (Bottom3 t) x = true ∧
           check2 (Front3 t) x = true ∧ check2 (Back3 t) x = true)) ∧
      (∀ (t : Homotopy X (ℚ × ℚ × ℚ × ℚ) Y) (x : X),
        check4 t x = true ↔
          (t.h x (0, 0, 0, 0) = t.f x ∧ t.h x (1, 1, 1, 1) = t.g x ∧
           check3 (Left4 t) x = true ∧ check3 (Right4 t) x = true ∧
           check3 (Top4 t) x = true ∧ check3 (Bottom4 t) x = true ∧
           check3 (Front4 t) x = true ∧ check3 (Back4 t) x = true ∧
           check3 (Past4 t) x = true ∧ check3 (Future4 t) x = true)) := by
  intro X Y _inst
  refine ⟨fun t x => ?_, fun t x => ?_, fun t x => ?_, fun t x => ?_⟩
  · simp [check, Bool.and_eq_true, beq_iff_eq]
  · simp only [check2, Bool.and_eq_true, beq_iff_eq, and_assoc]
  · simp only [check3, Bool.and_eq_true, beq_iff_eq, and_assoc]
  · simp only [check4, Bool.and_eq_true, beq_iff_eq, and_assoc]

/-- C9: the list homotopy is partial at its interface: each of `f`, `g`, `h`
(for both index shapes) indexes the vector directly, yielding the indexed
element's evaluation when the index is in range and the panic (modelled as
`none`) when the index reaches or exceeds the length. -/
theorem vec_homotopy_partial :
    ∀ (S Y : Type) (l : List (Homotopy Unit S Y)) (ind : ℕ) (s : S),
      ((hlt : ind < l.length) →
        vecF l ind = some (l[ind].f ()) ∧ vecG l ind = some (l[ind].g ()) ∧
        vecH l ind s = some (l[ind].h () s)) ∧
      (l.length ≤ ind →
        vecF l ind = none ∧ vecG l ind = none ∧ vecH l ind s = none) ∧
      (∀ (X : Type) (l2 : List (Homotopy X S Y)) (x : X),
        ((hlt : ind < l2.length) →
          vecFP l2 (ind, x) = some (l2[ind].f x) ∧
          vecGP l2 (ind, x) = some (l2[ind].g x) ∧
          vecHP l2 (ind, x) s = some (l2[ind].h x s)) ∧
        (l2.length ≤ ind →
          vecFP l2 (ind, x) = none ∧ vecGP l2 (ind, x) = none ∧
          vecHP l2 (ind, x) s = none)) := by
  intro S Y l ind s
  refine ⟨fun hlt => ?_, fun hge => ?_, fun X l2 x => ⟨fun hlt => ?_, fun hge => ?_⟩⟩
  · simp [vecF, vecG, vecH, List.getElem?_eq_getElem hlt]
  · simp [vecF, vecG, vecH, List.getElem?_eq_none hge]
  · simp [vecFP, vecGP, vecHP, List.getElem?_eq_getElem hlt]
  · simp [vecFP, vecGP, vecHP, List.getElem?_eq_none hge]

/-- C10: the step primitives switch exactly at `s == 0.0` under IEEE
comparison: `Dirac.h` is `1` at `0.0` and at the negative zero, `0` at NaN
and at every other scalar; `==` against `0.0` holds exactly for `0.0` and
`-0.0`; and `DiracFrom f g` takes the `f` branch exactly when the comparison
holds and the `g` branch otherwise. -/
theorem dirac_step_at_zero :
    (DiracF.h () (F64.fin 0) = 1) ∧
    (DiracF.h () F64.negZero = 1) ∧
    (DiracF.h () F64.nan = 0) ∧
    (∀ q : ℚ, q ≠ 0 → DiracF.h () (F64.fin q) = 0) ∧
    (∀ s : F64, F64.eq s (F64.fin 0) = true ↔ (s = F64.fin 0 ∨ s = F64.negZero)) ∧
    (∀ (X Y : Type) (fx gx : X → Y) (x : X) (s : F64),
      (F64.eq s (F64.fin 0) = true → (DiracFromF fx gx).h x s = fx x) ∧
      (F64.eq s (F64.fin 0) = false → (DiracFromF fx gx).h x s = gx x)) := by
  refine ⟨by simp [DiracF, F64.eq], by simp [DiracF, F64.eq], by simp [DiracF, F64.eq],
    fun q hq => by simp [DiracF, F64.eq, hq], fun s => ?_, fun X Y fx gx x s => ⟨?_, ?_⟩⟩
  · cases s <;> simp [F64.eq]
  · intro he
    simp [DiracFromF, he]
  · intro he
    simp [DiracFromF, he]

end HomotopyLib
